import Mathlib

/-!
Shallow embedding of the request-coalescing, multi-tier cache engine of this
repository (source files `src/do/RequestCoalescer.ts` and
`src/do/ProductCoalescer.ts`, shared types in `src/types.ts`).

Modelling conventions:
- JavaScript `Record<string, string>` objects (headers) and the two `Map`s of
  the Durable Object (`memoryCache`, `inflightRequests`), as well as the
  Durable Object storage, are modelled as association lists with the update
  semantics of object spread / `Map.set` (replace the existing binding in
  place, otherwise append at the end).
- Timestamps (`Date.now()`) and the TTL configuration values are integers in
  milliseconds (JavaScript numbers are used only for integral millisecond
  arithmetic here).
- The body value produced by `response.json().catch(() => null)` is modelled
  as `Option String`: `none` is the `null` produced when parsing fails, and
  `some s` is an arbitrary parsed payload.
- A JavaScript promise for an upstream fetch is identified by a numeric
  flight id.  The state carries a ghost log `flights` of the upstream fetch
  invocations that have been started, and `nextFid` as the id supply; these
  two fields exist only to let theorems count upstream invocations and to
  express which pending promise a caller awaits.
- Durable Objects deliver events one at a time and close their input gate
  while a storage operation is outstanding, so a call to `fetchCoalesced`
  runs without interleaving from its start until it either returns a value or
  suspends awaiting the shared upstream promise.  The embedding therefore
  makes each of the following an atomic step: one `fetchCoalesced` call up to
  its immediate result (`CallOutcome`), and the settlement of one upstream
  fetch (`settleFlight`, the code of `fetchUpstreamAndCache` after
  `await fetch` together with the `.finally` cleanup registered by
  `fetchAndCoalesce` / `backgroundRefresh`).  Process hibernation, which
  clears the two in-memory maps but keeps the persistent storage, is the
  `hibernate` step.
-/

/-- `CoalescedKey` from `src/types.ts`. -/
abbrev CoalescedKey := String

/-- `SerializableResponse` from `src/types.ts`. -/
structure SerializableResponse where
  status : Nat
  headers : List (String × String)
  body : Option String
deriving DecidableEq, Repr

/-- `CacheEntry` from `src/types.ts` (same field order as the source). -/
structure CacheEntry where
  expiresAt : Int
  body : Option String
  headers : List (String × String)
  status : Nat
  persistedAt : Int
deriving DecidableEq, Repr

/-- Lookup in an association list (JavaScript `Map.get` / property read). -/
def lookupA {α : Type} : List (String × α) → String → Option α
  | [], _ => none
  | p :: rest, k => if p.1 = k then some p.2 else lookupA rest k

/-- Update in an association list: replace the first binding of the key in
place, otherwise append at the end.  This is the behaviour of both
JavaScript `Map.set` and object spread `{...obj, k: v}`. -/
def setA {α : Type} : List (String × α) → String → α → List (String × α)
  | [], k, v => [(k, v)]
  | p :: rest, k, v => if p.1 = k then (k, v) :: rest else p :: setA rest k v

/-- Deletion from an association list (JavaScript `Map.delete`). -/
def removeA {α : Type} : List (String × α) → String → List (String × α)
  | [], _ => []
  | p :: rest, k => if p.1 = k then removeA rest k else p :: removeA rest k

/-- Result of the awaited upstream `fetch` (plus body parsing) as seen by the
code after the `await`: either the fetch rejected (network / transport
error), or it resolved with a status code and the result of
`response.json().catch(() => null)` (`none` models the `null` fallback on a
parse failure). -/
inductive UpstreamOutcome where
  | failure
  | success (status : Nat) (body : Option String)
deriving DecidableEq, Repr

/-- Immediate result of one `fetchCoalesced` call: either a response value
returned without suspending on upstream, or a suspension awaiting the shared
promise of the identified flight.  All callers awaiting the same flight id
receive the one result of that flight when it settles. -/
inductive CallOutcome where
  | returned (r : SerializableResponse)
  | awaiting (fid : Nat)
deriving DecidableEq, Repr

/-- The mutable state of one `RequestCoalescer` Durable Object instance
together with its persistent storage and the ghost flight log (see the
header comment). -/
structure CoalescerState where
  inflightRequests : List (CoalescedKey × Nat)
  memoryCache : List (CoalescedKey × CacheEntry)
  FRESH_TTL_MS : Int
  STALE_TTL_MS : Int
  storage : List (CoalescedKey × CacheEntry)
  nextFid : Nat
  flights : List (Nat × CoalescedKey)
deriving DecidableEq, Repr

/-- A freshly constructed instance: both maps empty, storage empty, TTLs from
the environment (constructor of `RequestCoalescer`). -/
def initState (freshTTL staleTTL : Int) : CoalescerState :=
  { inflightRequests := []
    memoryCache := []
    FRESH_TTL_MS := freshTTL
    STALE_TTL_MS := staleTTL
    storage := []
    nextFid := 0
    flights := [] }

/-- Process hibernation / restart: the in-memory maps are lost, persistent
storage survives (not a source function; environmental behaviour documented
in the source comments "lost on hibernation"). -/
def hibernate (s : CoalescerState) : CoalescerState :=
  { s with memoryCache := [], inflightRequests := [] }

/-- `checkMemoryCache` (`RequestCoalescer.ts` lines 153-168): return the
memory entry if present and not expired. -/
def checkMemoryCache (s : CoalescerState) (cacheKey : CoalescedKey) (now : Int) :
    Option SerializableResponse :=
  match lookupA s.memoryCache cacheKey with
  | some cached =>
      if now < cached.expiresAt then
        some { status := cached.status, headers := cached.headers, body := cached.body }
      else none
  | none => none

/-- `checkStorageCache` (`RequestCoalescer.ts` lines 178-204): return the
persisted entry if fresh (`persistedAt + FRESH_TTL_MS > now`) and warm the
memory cache with a copy whose `expiresAt` is `now + FRESH_TTL_MS`. -/
def checkStorageCache (s : CoalescerState) (cacheKey : CoalescedKey) (now : Int) :
    CoalescerState × Option SerializableResponse :=
  match lookupA s.storage cacheKey with
  | none => (s, none)
  | some persisted =>
      if now < persisted.persistedAt + s.FRESH_TTL_MS then
        ({ s with
            memoryCache :=
              setA s.memoryCache cacheKey
                { persisted with expiresAt := now + s.FRESH_TTL_MS } },
         some { status := persisted.status, headers := persisted.headers
                body := persisted.body })
      else (s, none)

/-- `checkInflightRequest` (`RequestCoalescer.ts` lines 213-217). -/
def checkInflightRequest (s : CoalescerState) (cacheKey : CoalescedKey) : Option Nat :=
  lookupA s.inflightRequests cacheKey

/-- `getLastKnownGood` (`RequestCoalescer.ts` lines 410-429): read storage
ignoring all TTLs and annotate with `CF-Cache-Status: LKG` and
`X-LKG-Age: now - persistedAt`. -/
def getLastKnownGood (s : CoalescerState) (cacheKey : CoalescedKey) (now : Int) :
    Option SerializableResponse :=
  match lookupA s.storage cacheKey with
  | none => none
  | some persisted =>
      some { status := persisted.status
             headers :=
               setA (setA persisted.headers "CF-Cache-Status" "LKG")
                 "X-LKG-Age" (toString (now - persisted.persistedAt))
             body := persisted.body }

/-- The response headers constructed by `fetchUpstreamAndCache` for a
response obtained from upstream during this call. -/
def upstreamHeaders (freshTTL staleTTL : Int) : List (String × String) :=
  [("Content-Type", "application/json; charset=utf-8"),
   ("Cache-Control",
     "public, max-age=" ++ toString (freshTTL / 1000) ++
       ", stale-while-revalidate=" ++ toString (staleTTL / 1000)),
   ("CF-Cache-Status", "MISS")]

/-- `fetchUpstreamAndCache` (`RequestCoalescer.ts` lines 335-401) after the
upstream `fetch` has settled with `out`:
on a transport failure, serve LKG or rethrow; on `status >= 500`, serve LKG
if one exists; otherwise build the `MISS` headers, build a `CacheEntry`
with `expiresAt = now + FRESH_TTL_MS` and `persistedAt = now`, write it to
both the memory cache and persistent storage when `status < 400`, and
return the upstream response. -/
def fetchUpstreamAndCache (s : CoalescerState) (cacheKey : CoalescedKey)
    (out : UpstreamOutcome) (now : Int) :
    CoalescerState × Except Unit SerializableResponse :=
  match out with
  | UpstreamOutcome.failure =>
      match getLastKnownGood s cacheKey now with
      | some lkg => (s, Except.ok lkg)
      | none => (s, Except.error ())
  | UpstreamOutcome.success status body =>
      match (if 500 ≤ status then getLastKnownGood s cacheKey now else none) with
      | some lkg => (s, Except.ok lkg)
      | none =>
          let headers := upstreamHeaders s.FRESH_TTL_MS s.STALE_TTL_MS
          let cacheEntry : CacheEntry :=
            { expiresAt := now + s.FRESH_TTL_MS
              body := body
              headers := headers
              status := status
              persistedAt := now }
          let s1 :=
            if status < 400 then
              { s with
                  memoryCache := setA s.memoryCache cacheKey cacheEntry
                  storage := setA s.storage cacheKey cacheEntry }
            else s
          (s1, Except.ok { status := status, headers := headers, body := body })

/-- Settlement of the pending flight for `cacheKey`: the post-await part of
`fetchUpstreamAndCache` followed by the `.finally` cleanup that removes the
in-flight registration (registered in `fetchAndCoalesce` lines 283-286 and in
`backgroundRefresh` lines 317-319). -/
def settleFlight (s : CoalescerState) (cacheKey : CoalescedKey)
    (out : UpstreamOutcome) (now : Int) :
    CoalescerState × Except Unit SerializableResponse :=
  let res := fetchUpstreamAndCache s cacheKey out now
  ({ res.1 with inflightRequests := removeA res.1.inflightRequests cacheKey }, res.2)

/-- `fetchAndCoalesce` (`RequestCoalescer.ts` lines 272-290): start the
upstream fetch (logged in `flights`), register its promise in
`inflightRequests`, and return the promise to await. -/
def fetchAndCoalesce (s : CoalescerState) (cacheKey : CoalescedKey) :
    CoalescerState × CallOutcome :=
  let fid := s.nextFid
  ({ s with
      inflightRequests := setA s.inflightRequests cacheKey fid
      nextFid := fid + 1
      flights := s.flights ++ [(fid, cacheKey)] },
   CallOutcome.awaiting fid)

/-- `backgroundRefresh` (`RequestCoalescer.ts` lines 301-323): if a flight is
already registered for the key do nothing, otherwise start and register a
refresh fetch.  The triggering caller does not await it. -/
def backgroundRefresh (s : CoalescerState) (cacheKey : CoalescedKey) : CoalescerState :=
  if (lookupA s.inflightRequests cacheKey).isSome then s
  else
    { s with
        inflightRequests := setA s.inflightRequests cacheKey s.nextFid
        nextFid := s.nextFid + 1
        flights := s.flights ++ [(s.nextFid, cacheKey)] }

/-- `tryServeStale` (`RequestCoalescer.ts` lines 232-260): if the persisted
entry is within the stale window (`persistedAt + STALE_TTL_MS > now`),
trigger a background refresh and return the entry with
`CF-Cache-Status: STALE`. -/
def tryServeStale (s : CoalescerState) (cacheKey : CoalescedKey) (now : Int) :
    CoalescerState × Option SerializableResponse :=
  match lookupA s.storage cacheKey with
  | none => (s, none)
  | some persisted =>
      if now < persisted.persistedAt + s.STALE_TTL_MS then
        (backgroundRefresh s cacheKey,
         some { status := persisted.status
                headers := setA persisted.headers "CF-Cache-Status" "STALE"
                body := persisted.body })
      else (s, none)

/-- `fetchCoalesced` (`RequestCoalescer.ts` lines 104-144), the five-step
lookup: memory cache, persistent storage, in-flight join, stale serve with
background refresh, cold fetch.  The cache key has already been built by the
injected `buildCacheKey`. -/
def fetchCoalesced (s : CoalescerState) (cacheKey : CoalescedKey) (now : Int) :
    CoalescerState × CallOutcome :=
  match checkMemoryCache s cacheKey now with
  | some r => (s, CallOutcome.returned r)
  | none =>
      match checkStorageCache s cacheKey now with
      | (s1, some r) => (s1, CallOutcome.returned r)
      | (s1, none) =>
          match checkInflightRequest s1 cacheKey with
          | some fid => (s1, CallOutcome.awaiting fid)
          | none =>
              match tryServeStale s1 cacheKey now with
              | (s2, some r) => (s2, CallOutcome.returned r)
              | (s2, none) => fetchAndCoalesce s2 cacheKey

/-- A sequence of `fetchCoalesced` calls for the same key, one per timestamp,
each running to its immediate outcome before the next starts and with no
flight settling in between: the shape of "N concurrent identical requests"
under the serialized execution model. -/
def arriveMany (s : CoalescerState) (cacheKey : CoalescedKey) :
    List Int → CoalescerState × List CallOutcome
  | [] => (s, [])
  | t :: ts =>
      let step := fetchCoalesced s cacheKey t
      let rest := arriveMany step.1 cacheKey ts
      (rest.1, step.2 :: rest.2)

/-- States reachable by any interleaving of request arrivals, flight
settlements and hibernations from a fresh instance with the given TTL
configuration. -/
inductive Reachable (freshTTL staleTTL : Int) : CoalescerState → Prop where
  | init : Reachable freshTTL staleTTL (initState freshTTL staleTTL)
  | arrive (k : CoalescedKey) (t : Int) {s : CoalescerState} :
      Reachable freshTTL staleTTL s →
      Reachable freshTTL staleTTL (fetchCoalesced s k t).1
  | settle (k : CoalescedKey) (out : UpstreamOutcome) (t : Int) {s : CoalescerState} :
      Reachable freshTTL staleTTL s →
      Reachable freshTTL staleTTL (settleFlight s k out t).1
  | hibernation {s : CoalescerState} :
      Reachable freshTTL staleTTL s →
      Reachable freshTTL staleTTL (hibernate s)

/-!
### The `ProductCoalescer` variant

`src/do/ProductCoalescer.ts` duplicates the engine with two differences that
matter to the claims: its `makeCacheKey` normalizes the field list, and its
`fetchUpstreamAndCache` has no LKG path and writes every upstream response to
both tiers unconditionally.
-/

namespace ProductCoalescer

/-- The whitespace class stripped by JavaScript `String.prototype.trim`
(restricted to the common ASCII whitespace characters). -/
def isJsWhitespace (c : Char) : Bool :=
  c == ' ' || c == '\t' || c == '\n' || c == '\r' || c == '\x0b' || c == '\x0c'

/-- JavaScript `f.trim()`: strip leading and trailing whitespace. -/
def jsTrim (str : String) : String :=
  String.mk
    (((str.toList.dropWhile isJsWhitespace).reverse.dropWhile isJsWhitespace).reverse)

/-- JavaScript `Array.from(new Set(xs))`: remove duplicates keeping the first
occurrence of each element, in insertion order. -/
def setDedup (xs : List String) : List String :=
  xs.foldl (fun acc x => if x ∈ acc then acc else acc ++ [x]) []

/-- `makeCacheKey` (`ProductCoalescer.ts` lines 64-69): trim each field, drop
empty strings, deduplicate, sort, and join with commas after the product id.
JavaScript `Array.prototype.sort()` compares strings by code units; the Lean
`String` linear order stands in for it - the claims proved below depend only
on it being a total order, which makes the sorted deduplicated list a
canonical representative of the field set. -/
def makeCacheKey (productId : String) (fields : List String) : CoalescedKey :=
  let normalizedFields :=
    List.insertionSort (fun a b => a ≤ b)
      (setDedup ((fields.map jsTrim).filter (fun f => f ≠ "")))
  productId ++ "::" ++ String.intercalate "," normalizedFields

/-- `fetchUpstreamAndCache` (`ProductCoalescer.ts` lines 320-367) after the
upstream fetch settles: no LKG fallback and no cacheability check - every
upstream response is written to both tiers; a transport failure propagates
to the caller. -/
def fetchUpstreamAndCache (s : CoalescerState) (cacheKey : CoalescedKey)
    (out : UpstreamOutcome) (now : Int) :
    CoalescerState × Except Unit SerializableResponse :=
  match out with
  | UpstreamOutcome.failure => (s, Except.error ())
  | UpstreamOutcome.success status body =>
      let headers := upstreamHeaders s.FRESH_TTL_MS s.STALE_TTL_MS
      let cacheEntry : CacheEntry :=
        { expiresAt := now + s.FRESH_TTL_MS
          body := body
          headers := headers
          status := status
          persistedAt := now }
      ({ s with
           memoryCache := setA s.memoryCache cacheKey cacheEntry
           storage := setA s.storage cacheKey cacheEntry },
       Except.ok { status := status, headers := headers, body := body })

end ProductCoalescer

/-! ### Association-list lemmas -/

theorem lookupA_setA {α : Type} (m : List (String × α)) (k k' : String) (v : α) :
    lookupA (setA m k v) k' = if k = k' then some v else lookupA m k' := by
  induction m with
  | nil => simp [setA, lookupA]
  | cons p rest ih =>
      simp only [setA]
      by_cases h1 : p.1 = k
      · by_cases h2 : k = k'
        · simp [lookupA, h1, h2]
        · have h3 : ¬ p.1 = k' := by rw [h1]; exact h2
          simp [lookupA, h1, h2, h3]
      · by_cases h2 : p.1 = k'
        · have h3 : ¬ k = k' := fun he => h1 (by rw [he]; exact h2)
          have h4 : ¬ k' = k := fun he => h3 he.symm
          simp [lookupA, h1, h2, h3, h4]
        · simp [lookupA, h1, h2, ih]

theorem lookupA_setA_self {α : Type} (m : List (String × α)) (k : String) (v : α) :
    lookupA (setA m k v) k = some v := by
  simp [lookupA_setA]

theorem lookupA_setA_ne {α : Type} (m : List (String × α)) {k k' : String} (v : α)
    (h : k ≠ k') : lookupA (setA m k v) k' = lookupA m k' := by
  simp [lookupA_setA, h]

theorem lookupA_removeA_self {α : Type} (m : List (String × α)) (k : String) :
    lookupA (removeA m k) k = none := by
  induction m with
  | nil => simp [removeA, lookupA]
  | cons p rest ih =>
      simp only [removeA]
      by_cases h : p.1 = k
      · simp [h, ih]
      · simp [lookupA, h, ih]

theorem removeA_sublist {α : Type} (m : List (String × α)) (k : String) :
    List.Sublist (removeA m k) m := by
  induction m with
  | nil => simp [removeA]
  | cons p rest ih =>
      simp only [removeA]
      by_cases h : p.1 = k
      · simp only [h, if_true]
        exact ih.cons p
      · simp only [h, if_false]
        exact ih.cons₂ p

theorem mem_keys_setA {α : Type} (m : List (String × α)) (k a : String) (v : α)
    (h : a ∈ (setA m k v).map Prod.fst) : a ∈ m.map Prod.fst ∨ a = k := by
  induction m with
  | nil => simp [setA] at h; simp [h]
  | cons p rest ih =>
      simp only [setA] at h
      by_cases h1 : p.1 = k
      · simp only [h1, if_true, List.map_cons, List.mem_cons] at h
        rcases h with h | h
        · right; exact h
        · left
          simp only [List.map_cons, List.mem_cons]
          right; exact h
      · simp only [h1, if_false, List.map_cons, List.mem_cons] at h
        rcases h with h | h
        · left
          simp only [List.map_cons, List.mem_cons]
          left; exact h
        · rcases ih h with h' | h'
          · left
            simp only [List.map_cons, List.mem_cons]
            right; exact h'
          · right; exact h'

theorem nodup_keys_setA {α : Type} (m : List (String × α)) (k : String) (v : α)
    (h : (m.map Prod.fst).Nodup) : ((setA m k v).map Prod.fst).Nodup := by
  induction m with
  | nil => simp [setA]
  | cons p rest ih =>
      simp only [List.map_cons, List.nodup_cons] at h
      simp only [setA]
      by_cases h1 : p.1 = k
      · simp only [h1, if_true, List.map_cons, List.nodup_cons]
        exact ⟨h1 ▸ h.1, h.2⟩
      · simp only [h1, if_false, List.map_cons, List.nodup_cons]
        refine ⟨fun hmem => ?_, ih h.2⟩
        rcases mem_keys_setA rest k p.1 v hmem with h' | h'
        · exact h.1 h'
        · exact h1 h'

theorem nodup_keys_removeA {α : Type} (m : List (String × α)) (k : String)
    (h : (m.map Prod.fst).Nodup) : ((removeA m k).map Prod.fst).Nodup :=
  h.sublist ((removeA_sublist m k).map Prod.fst)

/-! ### Characterization of the individual lookup steps -/

theorem checkMemoryCache_some_inv {s : CoalescerState} {k : CoalescedKey} {now : Int}
    {r : SerializableResponse} (h : checkMemoryCache s k now = some r) :
    ∃ c, lookupA s.memoryCache k = some c ∧ now < c.expiresAt ∧
      r = { status := c.status, headers := c.headers, body := c.body } := by
  unfold checkMemoryCache at h
  cases hl : lookupA s.memoryCache k with
  | none => simp [hl] at h
  | some c =>
      simp only [hl] at h
      by_cases hexp : now < c.expiresAt
      · rw [if_pos hexp] at h
        exact ⟨c, rfl, hexp, (Option.some_inj.mp h).symm⟩
      · rw [if_neg hexp] at h; cases h

theorem checkMemoryCache_hit {s : CoalescerState} {k : CoalescedKey} {now : Int}
    {c : CacheEntry} (hl : lookupA s.memoryCache k = some c) (hexp : now < c.expiresAt) :
    checkMemoryCache s k now =
      some { status := c.status, headers := c.headers, body := c.body } := by
  unfold checkMemoryCache
  simp only [hl]
  rw [if_pos hexp]

theorem checkMemoryCache_gone {s : CoalescerState} {k : CoalescedKey} {now : Int}
    (hl : lookupA s.memoryCache k = none) : checkMemoryCache s k now = none := by
  unfold checkMemoryCache
  simp only [hl]

theorem checkMemoryCache_expired {s : CoalescerState} {k : CoalescedKey} {now : Int}
    {c : CacheEntry} (hl : lookupA s.memoryCache k = some c)
    (hexp : ¬ now < c.expiresAt) : checkMemoryCache s k now = none := by
  unfold checkMemoryCache
  simp only [hl]
  rw [if_neg hexp]

theorem checkStorageCache_miss {s : CoalescerState} {k : CoalescedKey} {now : Int}
    (h : lookupA s.storage k = none) : checkStorageCache s k now = (s, none) := by
  unfold checkStorageCache
  simp only [h]

theorem checkStorageCache_notFresh {s : CoalescerState} {k : CoalescedKey} {now : Int}
    {p : CacheEntry} (hl : lookupA s.storage k = some p)
    (h : ¬ now < p.persistedAt + s.FRESH_TTL_MS) :
    checkStorageCache s k now = (s, none) := by
  unfold checkStorageCache
  simp only [hl]
  rw [if_neg h]

theorem checkStorageCache_fresh {s : CoalescerState} {k : CoalescedKey} {now : Int}
    {p : CacheEntry} (hl : lookupA s.storage k = some p)
    (h : now < p.persistedAt + s.FRESH_TTL_MS) :
    checkStorageCache s k now =
      ({ s with
           memoryCache :=
             setA s.memoryCache k { p with expiresAt := now + s.FRESH_TTL_MS } },
       some { status := p.status, headers := p.headers, body := p.body }) := by
  unfold checkStorageCache
  simp only [hl]
  rw [if_pos h]

theorem tryServeStale_miss {s : CoalescerState} {k : CoalescedKey} {now : Int}
    (h : lookupA s.storage k = none) : tryServeStale s k now = (s, none) := by
  unfold tryServeStale
  simp only [h]

theorem tryServeStale_hit {s : CoalescerState} {k : CoalescedKey} {now : Int}
    {p : CacheEntry} (hl : lookupA s.storage k = some p)
    (h : now < p.persistedAt + s.STALE_TTL_MS) :
    tryServeStale s k now =
      (backgroundRefresh s k,
       some { status := p.status
              headers := setA p.headers "CF-Cache-Status" "STALE"
              body := p.body }) := by
  unfold tryServeStale
  simp only [hl]
  rw [if_pos h]

theorem tryServeStale_old {s : CoalescerState} {k : CoalescedKey} {now : Int}
    {p : CacheEntry} (hl : lookupA s.storage k = some p)
    (h : ¬ now < p.persistedAt + s.STALE_TTL_MS) :
    tryServeStale s k now = (s, none) := by
  unfold tryServeStale
  simp only [hl]
  rw [if_neg h]

/-! ### Branch equations for `fetchCoalesced` -/

theorem fetchCoalesced_memory_hit {s : CoalescerState} {k : CoalescedKey} {now : Int}
    {r : SerializableResponse} (h : checkMemoryCache s k now = some r) :
    fetchCoalesced s k now = (s, CallOutcome.returned r) := by
  unfold fetchCoalesced
  simp only [h]

theorem fetchCoalesced_storage_fresh {s : CoalescerState} {k : CoalescedKey} {now : Int}
    {p : CacheEntry} (hm : checkMemoryCache s k now = none)
    (hl : lookupA s.storage k = some p) (h : now < p.persistedAt + s.FRESH_TTL_MS) :
    fetchCoalesced s k now =
      ({ s with
           memoryCache :=
             setA s.memoryCache k { p with expiresAt := now + s.FRESH_TTL_MS } },
       CallOutcome.returned
         { status := p.status, headers := p.headers, body := p.body }) := by
  unfold fetchCoalesced
  simp only [hm, checkStorageCache_fresh hl h]

theorem fetchCoalesced_join {s : CoalescerState} {k : CoalescedKey} {now : Int}
    {fid : Nat} (hm : checkMemoryCache s k now = none)
    (hs : checkStorageCache s k now = (s, none))
    (hin : lookupA s.inflightRequests k = some fid) :
    fetchCoalesced s k now = (s, CallOutcome.awaiting fid) := by
  unfold fetchCoalesced
  simp only [hm, hs, checkInflightRequest, hin]

theorem fetchCoalesced_stale {s : CoalescerState} {k : CoalescedKey} {now : Int}
    {p : CacheEntry} (hm : checkMemoryCache s k now = none)
    (hs : checkStorageCache s k now = (s, none))
    (hin : lookupA s.inflightRequests k = none)
    (hl : lookupA s.storage k = some p)
    (hst : now < p.persistedAt + s.STALE_TTL_MS) :
    fetchCoalesced s k now =
      (backgroundRefresh s k,
       CallOutcome.returned
         { status := p.status
           headers := setA p.headers "CF-Cache-Status" "STALE"
           body := p.body }) := by
  unfold fetchCoalesced
  simp only [hm, hs, checkInflightRequest, hin, tryServeStale_hit hl hst]

theorem fetchCoalesced_cold {s : CoalescerState} {k : CoalescedKey} {now : Int}
    (hm : checkMemoryCache s k now = none)
    (hs : checkStorageCache s k now = (s, none))
    (hin : lookupA s.inflightRequests k = none)
    (hts : tryServeStale s k now = (s, none)) :
    fetchCoalesced s k now = fetchAndCoalesce s k := by
  unfold fetchCoalesced
  simp only [hm, hs, checkInflightRequest, hin, hts]

/-! ### Claim C1: request coalescing -/

theorem fetchCoalesced_all_miss_join {s : CoalescerState} {k : CoalescedKey}
    {now : Int} {fid : Nat}
    (hm : lookupA s.memoryCache k = none) (hst : lookupA s.storage k = none)
    (hin : lookupA s.inflightRequests k = some fid) :
    fetchCoalesced s k now = (s, CallOutcome.awaiting fid) :=
  fetchCoalesced_join (checkMemoryCache_gone hm) (checkStorageCache_miss hst) hin

theorem fetchCoalesced_cold_start {s : CoalescerState} {k : CoalescedKey} {now : Int}
    (hm : lookupA s.memoryCache k = none) (hst : lookupA s.storage k = none)
    (hin : lookupA s.inflightRequests k = none) :
    fetchCoalesced s k now =
      ({ s with
           inflightRequests := setA s.inflightRequests k s.nextFid
           nextFid := s.nextFid + 1
           flights := s.flights ++ [(s.nextFid, k)] },
       CallOutcome.awaiting s.nextFid) :=
  fetchCoalesced_cold (checkMemoryCache_gone hm) (checkStorageCache_miss hst) hin
    (tryServeStale_miss hst)

theorem arriveMany_join {s : CoalescerState} {k : CoalescedKey} {fid : Nat}
    (ts : List Int)
    (hm : lookupA s.memoryCache k = none) (hst : lookupA s.storage k = none)
    (hin : lookupA s.inflightRequests k = some fid) :
    arriveMany s k ts = (s, ts.map fun _ => CallOutcome.awaiting fid) := by
  induction ts with
  | nil => simp [arriveMany]
  | cons t rest ih =>
      simp [arriveMany, fetchCoalesced_all_miss_join hm hst hin, ih]

/-- Claim C1: for N >= 1 calls to `fetchCoalesced` with an identical cache key
that run concurrently (each reaches its immediate outcome before any flight
settles), while no entry exists for the key in the memory tier, in the
persistent tier, or in the in-flight registry, exactly one upstream fetch
invocation occurs (one new element in the flight log) and all N callers await
the same pending flight, hence all receive the byte-identical response that
this single flight settles with. -/
theorem C1_coalescing (s : CoalescerState) (k : CoalescedKey) (ts : List Int)
    (hm : lookupA s.memoryCache k = none) (hst : lookupA s.storage k = none)
    (hin : lookupA s.inflightRequests k = none) (hne : ts ≠ []) :
    (arriveMany s k ts).2 = ts.map (fun _ => CallOutcome.awaiting s.nextFid) ∧
    (arriveMany s k ts).1.flights = s.flights ++ [(s.nextFid, k)] := by
  cases ts with
  | nil => exact absurd rfl hne
  | cons t rest =>
      have hcold := @fetchCoalesced_cold_start s k t hm hst hin
      have hrest :=
        arriveMany_join
          (s := { s with
                    inflightRequests := setA s.inflightRequests k s.nextFid
                    nextFid := s.nextFid + 1
                    flights := s.flights ++ [(s.nextFid, k)] })
          (k := k) rest hm hst (lookupA_setA_self _ _ _)
      refine ⟨?_, ?_⟩
      · simp [arriveMany, hcold, hrest]
      · simp [arriveMany, hcold, hrest]

/-- Witness for C1 at a concrete input: three concurrent calls on a fresh
instance all await flight 0 and exactly one upstream invocation is logged. -/
theorem C1_coalescing_witness :
    (arriveMany (initState 10000 60000) "k" [0, 1, 2]).2 =
        [CallOutcome.awaiting 0, CallOutcome.awaiting 0, CallOutcome.awaiting 0] ∧
    (arriveMany (initState 10000 60000) "k" [0, 1, 2]).1.flights = [(0, "k")] := by
  have h := C1_coalescing (initState 10000 60000) "k" [0, 1, 2] rfl rfl rfl (by simp)
  simpa using h

/-! ### Claims C2 and C3: failure propagation and LKG fallback -/

theorem getLastKnownGood_none_iff {s : CoalescerState} {k : CoalescedKey} {now : Int} :
    getLastKnownGood s k now = none ↔ lookupA s.storage k = none := by
  unfold getLastKnownGood
  cases hl : lookupA s.storage k <;> simp [hl]

theorem getLastKnownGood_some {s : CoalescerState} {k : CoalescedKey} {now : Int}
    {p : CacheEntry} (hl : lookupA s.storage k = some p) :
    getLastKnownGood s k now =
      some { status := p.status
             headers :=
               setA (setA p.headers "CF-Cache-Status" "LKG") "X-LKG-Age"
                 (toString (now - p.persistedAt))
             body := p.body } := by
  unfold getLastKnownGood
  simp only [hl]

/-- Claim C2: a `fetchCoalesced` caller observes an error if and only if the
upstream fetch itself fails with a transport error and no previously
persisted entry exists for the key.  Immediate outcomes of `fetchCoalesced`
(fresh hits, stale serves, joins) are values by construction; an error can
only surface through the settlement of the awaited flight, and that
settlement errors exactly when the upstream outcome is a transport failure
and the persistent tier is empty for the key - every other settlement (any
status code including 5xx, any body including a parse failure) produces a
`SerializableResponse` value. -/
theorem C2_fail_iff_no_fallback (s : CoalescerState) (k : CoalescedKey)
    (out : UpstreamOutcome) (now : Int) :
    (fetchUpstreamAndCache s k out now).2 = Except.error () ↔
      out = UpstreamOutcome.failure ∧ lookupA s.storage k = none := by
  cases out with
  | failure =>
      unfold fetchUpstreamAndCache
      cases hg : getLastKnownGood s k now with
      | some lkg =>
          have hne : lookupA s.storage k ≠ none := by
            intro h
            rw [getLastKnownGood_none_iff.mpr h] at hg
            cases hg
          simp [hg, hne]
      | none => simp [hg, getLastKnownGood_none_iff.mp hg]
  | success st b =>
      unfold fetchUpstreamAndCache
      cases hv : (if 500 ≤ st then getLastKnownGood s k now else none) with
      | some lkg => simp [hv]
      | none => simp [hv]

/-- Claim C3: if the upstream fetch fails with a transport error or succeeds
with status >= 500, and any entry is persisted for the key (its age being
irrelevant), the caller receives that persisted entry with
`CF-Cache-Status: LKG` and an `X-LKG-Age` header carrying the non-negative
age in milliseconds since `persistedAt`, instead of an error or the 5xx
response. -/
theorem C3_lkg_fallback (s : CoalescerState) (k : CoalescedKey)
    (out : UpstreamOutcome) (now : Int) (e : CacheEntry)
    (hout : out = UpstreamOutcome.failure ∨
      ∃ st b, out = UpstreamOutcome.success st b ∧ 500 ≤ st)
    (he : lookupA s.storage k = some e) (hage : e.persistedAt ≤ now) :
    (fetchUpstreamAndCache s k out now).2 =
      Except.ok
        { status := e.status
          headers :=
            setA (setA e.headers "CF-Cache-Status" "LKG") "X-LKG-Age"
              (toString (now - e.persistedAt))
          body := e.body } ∧
    0 ≤ now - e.persistedAt ∧
    lookupA
        (setA (setA e.headers "CF-Cache-Status" "LKG") "X-LKG-Age"
          (toString (now - e.persistedAt))) "CF-Cache-Status" = some "LKG" ∧
    lookupA
        (setA (setA e.headers "CF-Cache-Status" "LKG") "X-LKG-Age"
          (toString (now - e.persistedAt))) "X-LKG-Age" =
      some (toString (now - e.persistedAt)) := by
  have hg := @getLastKnownGood_some s k now e he
  refine ⟨?_, Int.sub_nonneg.mpr hage, ?_, ?_⟩
  · rcases hout with h | ⟨st, b, h, hst⟩
    · subst h
      unfold fetchUpstreamAndCache
      simp [hg]
    · subst h
      unfold fetchUpstreamAndCache
      simp [hg, hst]
  · simp [lookupA_setA]
  · exact lookupA_setA_self _ _ _

/-! ### Claim C3 witness and Claim C4: freshness -/

/-- Witness for C3: transport failure at time 5000 over an entry persisted at
time 0 yields that entry annotated LKG with age 5000. -/
theorem C3_lkg_fallback_witness :
    (fetchUpstreamAndCache
        { initState 10000 60000 with
            storage := [("k",
              { expiresAt := 10000, body := some "cached"
                headers := [("Content-Type", "application/json; charset=utf-8")]
                status := 200, persistedAt := 0 })] }
        "k" UpstreamOutcome.failure 5000).2 =
      Except.ok
        { status := 200
          headers :=
            setA
              (setA [("Content-Type", "application/json; charset=utf-8")]
                "CF-Cache-Status" "LKG")
              "X-LKG-Age" (toString ((5000 : Int) - 0))
          body := some "cached" } ∧
    (0 : Int) ≤ 5000 - 0 :=
  ⟨(C3_lkg_fallback
      { initState 10000 60000 with
          storage := [("k",
            { expiresAt := 10000, body := some "cached"
              headers := [("Content-Type", "application/json; charset=utf-8")]
              status := 200, persistedAt := 0 })] }
      "k" UpstreamOutcome.failure 5000
      { expiresAt := 10000, body := some "cached"
        headers := [("Content-Type", "application/json; charset=utf-8")]
        status := 200, persistedAt := 0 }
      (Or.inl rfl) rfl (by decide)).1,
   (C3_lkg_fallback
      { initState 10000 60000 with
          storage := [("k",
            { expiresAt := 10000, body := some "cached"
              headers := [("Content-Type", "application/json; charset=utf-8")]
              status := 200, persistedAt := 0 })] }
      "k" UpstreamOutcome.failure 5000
      { expiresAt := 10000, body := some "cached"
        headers := [("Content-Type", "application/json; charset=utf-8")]
        status := 200, persistedAt := 0 }
      (Or.inl rfl) rfl (by decide)).2.1⟩

/-- Claim C4: with `freshTTL = F`, an entry for the key persisted at `t0`
(and not overwritten since: any memory-tier copy agrees with it on status,
headers and body), every `fetchCoalesced` call at a time `t` with
`t0 <= t < t0 + F` returns exactly that entry's status, headers and body, and
starts no upstream fetch (the flight log and the in-flight registry are
unchanged, as is the persistent tier). -/
theorem C4_freshness (s : CoalescerState) (k : CoalescedKey) (e : CacheEntry)
    (t t0 : Int)
    (hmem : ∀ m, lookupA s.memoryCache k = some m →
      m.status = e.status ∧ m.headers = e.headers ∧ m.body = e.body)
    (hst : lookupA s.storage k = some e) (ht0 : e.persistedAt = t0)
    (_h1 : t0 ≤ t) (h2 : t < t0 + s.FRESH_TTL_MS) :
    (fetchCoalesced s k t).2 =
      CallOutcome.returned
        { status := e.status, headers := e.headers, body := e.body } ∧
    (fetchCoalesced s k t).1.flights = s.flights ∧
    (fetchCoalesced s k t).1.inflightRequests = s.inflightRequests ∧
    (fetchCoalesced s k t).1.storage = s.storage := by
  cases hm : checkMemoryCache s k t with
  | some r =>
      obtain ⟨c, hc, hcx, hr⟩ := checkMemoryCache_some_inv hm
      obtain ⟨hs1, hs2, hs3⟩ := hmem c hc
      rw [fetchCoalesced_memory_hit hm]
      subst hr
      simp [hs1, hs2, hs3]
  | none =>
      have hfresh : t < e.persistedAt + s.FRESH_TTL_MS := by rw [ht0]; exact h2
      rw [fetchCoalesced_storage_fresh hm hst hfresh]
      simp

/-- Witness for C4: a request at time 5000 over an entry persisted at time 0
with `freshTTL = 10000` returns the entry unchanged and starts nothing. -/
theorem C4_freshness_witness :
    (fetchCoalesced
        { initState 10000 60000 with
            storage := [("k",
              { expiresAt := 10000, body := some "b"
                headers := [("Content-Type", "application/json; charset=utf-8")]
                status := 200, persistedAt := 0 })] }
        "k" 5000).2 =
      CallOutcome.returned
        { status := 200
          headers := [("Content-Type", "application/json; charset=utf-8")]
          body := some "b" } ∧
    (fetchCoalesced
        { initState 10000 60000 with
            storage := [("k",
              { expiresAt := 10000, body := some "b"
                headers := [("Content-Type", "application/json; charset=utf-8")]
                status := 200, persistedAt := 0 })] }
        "k" 5000).1.flights = [] ∧
    (fetchCoalesced
        { initState 10000 60000 with
            storage := [("k",
              { expiresAt := 10000, body := some "b"
                headers := [("Content-Type", "application/json; charset=utf-8")]
                status := 200, persistedAt := 0 })] }
        "k" 5000).1.inflightRequests = [] ∧
    (fetchCoalesced
        { initState 10000 60000 with
            storage := [("k",
              { expiresAt := 10000, body := some "b"
                headers := [("Content-Type", "application/json; charset=utf-8")]
                status := 200, persistedAt := 0 })] }
        "k" 5000).1.storage =
      [("k",
        { expiresAt := 10000, body := some "b"
          headers := [("Content-Type", "application/json; charset=utf-8")]
          status := 200, persistedAt := 0 })] :=
  C4_freshness
    { initState 10000 60000 with
        storage := [("k",
          { expiresAt := 10000, body := some "b"
            headers := [("Content-Type", "application/json; charset=utf-8")]
            status := 200, persistedAt := 0 })] }
    "k"
    { expiresAt := 10000, body := some "b"
      headers := [("Content-Type", "application/json; charset=utf-8")]
      status := 200, persistedAt := 0 }
    5000 0
    (fun m h => by simp [initState, lookupA] at h)
    rfl rfl (by decide) (by decide)

/-! ### Claim C5: stale serve and single background refresh -/

/-- Counterexample to C5 as stated: with `freshTTL = 10000`,
`staleTTL = 60000` and an entry persisted at time 0 (settled from upstream
with status 200 and body "b"), a first stale-window request at t = 15000
serves STALE and registers a background refresh; the claim then asserts the
second stale-window request at t = 16000 also "returns that entry with
CF-Cache-Status STALE", but instead it joins the in-flight refresh (step 3
precedes step 4) and does not return the STALE-annotated entry. -/
theorem C5_counterexample :
    (fetchCoalesced
        (fetchCoalesced
          (settleFlight (initState 10000 60000) "k"
            (UpstreamOutcome.success 200 (some "b")) 0).1
          "k" 15000).1
        "k" 16000).2 ≠
      CallOutcome.returned
        { status := 200
          headers := setA (upstreamHeaders 10000 60000) "CF-Cache-Status" "STALE"
          body := some "b" } := by
  decide

/-- Claim C5 (amended): with `freshTTL = F`, `staleTTL = S`, an entry
persisted at `t0` and a request time `t` with `t0 + F <= t < t0 + S` (every
memory-tier copy of the key being expired at `t`): a request that finds no
in-flight flight for the key returns the entry immediately with
`CF-Cache-Status: STALE` and registers exactly one background refresh; a
request that finds an in-flight flight joins it (awaiting its result, with
no state change) instead of being served the stale entry, so any number of
stale-window requests in the same window trigger exactly one refresh. -/
theorem C5_stale_single_refresh (s : CoalescerState) (k : CoalescedKey)
    (e : CacheEntry) (t : Int)
    (hmem : ∀ m, lookupA s.memoryCache k = some m → m.expiresAt ≤ t)
    (hst : lookupA s.storage k = some e)
    (h1 : e.persistedAt + s.FRESH_TTL_MS ≤ t)
    (h2 : t < e.persistedAt + s.STALE_TTL_MS) :
    (lookupA s.inflightRequests k = none →
      (fetchCoalesced s k t).2 =
        CallOutcome.returned
          { status := e.status
            headers := setA e.headers "CF-Cache-Status" "STALE"
            body := e.body } ∧
      (fetchCoalesced s k t).1.flights = s.flights ++ [(s.nextFid, k)] ∧
      lookupA (fetchCoalesced s k t).1.inflightRequests k = some s.nextFid) ∧
    (∀ fid, lookupA s.inflightRequests k = some fid →
      (fetchCoalesced s k t).2 = CallOutcome.awaiting fid ∧
      (fetchCoalesced s k t).1 = s) := by
  have hm : checkMemoryCache s k t = none := by
    cases hl : lookupA s.memoryCache k with
    | none => exact checkMemoryCache_gone hl
    | some m =>
        exact checkMemoryCache_expired hl (not_lt.mpr (hmem m hl))
  have hs : checkStorageCache s k t = (s, none) :=
    checkStorageCache_notFresh hst (not_lt.mpr h1)
  constructor
  · intro hin
    rw [fetchCoalesced_stale hm hs hin hst h2]
    have hbg : backgroundRefresh s k =
        { s with
            inflightRequests := setA s.inflightRequests k s.nextFid
            nextFid := s.nextFid + 1
            flights := s.flights ++ [(s.nextFid, k)] } := by
      unfold backgroundRefresh
      rw [hin]
      rfl
    rw [hbg]
    exact ⟨rfl, rfl, lookupA_setA_self _ _ _⟩
  · intro fid hin
    rw [fetchCoalesced_join hm hs hin]
    exact ⟨rfl, rfl⟩

/-- Witness for C5 (amended), on the same trace as the counterexample: the
first stale request at t = 15000 is served STALE and registers refresh
flight 0; the second at t = 16000 joins flight 0 and changes nothing. -/
theorem C5_stale_single_refresh_witness :
    ((fetchCoalesced
        (settleFlight (initState 10000 60000) "k"
          (UpstreamOutcome.success 200 (some "b")) 0).1
        "k" 15000).2 =
      CallOutcome.returned
        { status := 200
          headers := setA (upstreamHeaders 10000 60000) "CF-Cache-Status" "STALE"
          body := some "b" } ∧
      (fetchCoalesced
        (settleFlight (initState 10000 60000) "k"
          (UpstreamOutcome.success 200 (some "b")) 0).1
        "k" 15000).1.flights = [(0, "k")]) ∧
    ((fetchCoalesced
        (fetchCoalesced
          (settleFlight (initState 10000 60000) "k"
            (UpstreamOutcome.success 200 (some "b")) 0).1
          "k" 15000).1
        "k" 16000).2 = CallOutcome.awaiting 0 ∧
      (fetchCoalesced
        (fetchCoalesced
          (settleFlight (initState 10000 60000) "k"
            (UpstreamOutcome.success 200 (some "b")) 0).1
          "k" 15000).1
        "k" 16000).1.flights = [(0, "k")]) := by
  have hA :=
    C5_stale_single_refresh
      (settleFlight (initState 10000 60000) "k"
        (UpstreamOutcome.success 200 (some "b")) 0).1
      "k"
      { expiresAt := 10000, body := some "b"
        headers := upstreamHeaders 10000 60000
        status := 200, persistedAt := 0 }
      15000
      (fun m h => by
        simp only [show lookupA
            (settleFlight (initState 10000 60000) "k"
              (UpstreamOutcome.success 200 (some "b")) 0).1.memoryCache "k" =
            some { expiresAt := 10000, body := some "b"
                   headers := upstreamHeaders 10000 60000
                   status := 200, persistedAt := 0 } from by decide] at h
        cases h
        decide)
      (by decide) (by decide) (by decide)
  have hB :=
    C5_stale_single_refresh
      (fetchCoalesced
        (settleFlight (initState 10000 60000) "k"
          (UpstreamOutcome.success 200 (some "b")) 0).1
        "k" 15000).1
      "k"
      { expiresAt := 10000, body := some "b"
        headers := upstreamHeaders 10000 60000
        status := 200, persistedAt := 0 }
      16000
      (fun m h => by
        simp only [show lookupA
            (fetchCoalesced
              (settleFlight (initState 10000 60000) "k"
                (UpstreamOutcome.success 200 (some "b")) 0).1
              "k" 15000).1.memoryCache "k" =
            some { expiresAt := 10000, body := some "b"
                   headers := upstreamHeaders 10000 60000
                   status := 200, persistedAt := 0 } from by decide] at h
        cases h
        decide)
      (by decide) (by decide) (by decide)
  have hA1 := hA.1 (by decide)
  have hB2 := hB.2 0 (by decide)
  exact ⟨⟨hA1.1, hA1.2.1⟩,
    ⟨hB2.1, by rw [congrArg CoalescerState.flights hB2.2]; exact hA1.2.1⟩⟩

/-! ### Claim C6: cache-write policy on upstream success -/

/-- Counterexample to C6 as stated: an upstream success with status 404
(which is `< 500`) is not written to either tier by
`RequestCoalescer.fetchUpstreamAndCache` - the code guards the writes with
`status < 400`, not `status < 500`. -/
theorem C6_counterexample :
    lookupA
        (fetchUpstreamAndCache (initState 10000 60000) "k"
          (UpstreamOutcome.success 404 (some "missing")) 5).1.storage "k" = none ∧
    lookupA
        (fetchUpstreamAndCache (initState 10000 60000) "k"
          (UpstreamOutcome.success 404 (some "missing")) 5).1.memoryCache "k" = none := by
  decide

/-- Claim C6 (amended): when the upstream fetch completes with
`status < 400`, `RequestCoalescer.fetchUpstreamAndCache` constructs a
`CacheEntry` with `expiresAt = now + FRESH_TTL_MS` and `persistedAt = now`
and writes it to both the memory tier and the persistent tier; for
`400 <= status` (in particular the whole range [400, 500) that the claim as
stated would have cached) it leaves the state unchanged.  The
`ProductCoalescer` variant writes the same entry to both tiers for every
upstream status. -/
theorem C6_cache_write_policy (s : CoalescerState) (k : CoalescedKey)
    (st : Nat) (b : Option String) (now : Int) :
    (st < 400 →
      lookupA
          (fetchUpstreamAndCache s k (UpstreamOutcome.success st b) now).1.memoryCache
          k =
        some { expiresAt := now + s.FRESH_TTL_MS, body := b
               headers := upstreamHeaders s.FRESH_TTL_MS s.STALE_TTL_MS
               status := st, persistedAt := now } ∧
      lookupA
          (fetchUpstreamAndCache s k (UpstreamOutcome.success st b) now).1.storage k =
        some { expiresAt := now + s.FRESH_TTL_MS, body := b
               headers := upstreamHeaders s.FRESH_TTL_MS s.STALE_TTL_MS
               status := st, persistedAt := now }) ∧
    (400 ≤ st →
      (fetchUpstreamAndCache s k (UpstreamOutcome.success st b) now).1 = s) ∧
    (lookupA
        (ProductCoalescer.fetchUpstreamAndCache s k
          (UpstreamOutcome.success st b) now).1.memoryCache k =
      some { expiresAt := now + s.FRESH_TTL_MS, body := b
             headers := upstreamHeaders s.FRESH_TTL_MS s.STALE_TTL_MS
             status := st, persistedAt := now } ∧
     lookupA
        (ProductCoalescer.fetchUpstreamAndCache s k
          (UpstreamOutcome.success st b) now).1.storage k =
      some { expiresAt := now + s.FRESH_TTL_MS, body := b
             headers := upstreamHeaders s.FRESH_TTL_MS s.STALE_TTL_MS
             status := st, persistedAt := now }) := by
  refine ⟨?_, ?_, ?_⟩
  · intro h4
    have h5 : ¬ 500 ≤ st := by omega
    simp [fetchUpstreamAndCache, h5, h4, lookupA_setA_self]
  · intro h4
    by_cases h5 : 500 ≤ st
    · cases hg : getLastKnownGood s k now with
      | some lkg => simp [fetchUpstreamAndCache, h5, hg]
      | none => simp [fetchUpstreamAndCache, h5, hg, show ¬ st < 400 by omega]
    · simp [fetchUpstreamAndCache, h5, show ¬ st < 400 by omega]
  · simp [ProductCoalescer.fetchUpstreamAndCache, lookupA_setA_self]

/-- Witness for C6 (amended): a status-200 success is persisted by
`RequestCoalescer` with the claimed timestamps, and a status-450 success is
persisted by the `ProductCoalescer` variant. -/
theorem C6_cache_write_policy_witness :
    lookupA
        (fetchUpstreamAndCache (initState 10000 60000) "k"
          (UpstreamOutcome.success 200 (some "b")) 0).1.storage "k" =
      some { expiresAt := 10000, body := some "b"
             headers := upstreamHeaders 10000 60000
             status := 200, persistedAt := 0 } ∧
    lookupA
        (ProductCoalescer.fetchUpstreamAndCache (initState 10000 60000) "k"
          (UpstreamOutcome.success 450 (some "e")) 0).1.storage "k" =
      some { expiresAt := 10000, body := some "e"
             headers := upstreamHeaders 10000 60000
             status := 450, persistedAt := 0 } :=
  ⟨((C6_cache_write_policy (initState 10000 60000) "k" 200 (some "b") 0).1
      (by decide)).2,
   (C6_cache_write_policy (initState 10000 60000) "k" 450 (some "e") 0).2.2.2⟩

/-! ### Claim C7: cache-status annotation -/

/-- Counterexample to C7 as stated: a genuine memory-tier fresh hit (at
t = 1, over an entry cached from upstream at t = 0) returns a response whose
`CF-Cache-Status` header is present with value `MISS`, even though the
response did not come from upstream during this call - the `MISS` header was
stored inside the cached entry and is replayed verbatim, so the indicator is
not absent/unset on a genuine fresh hit. -/
theorem C7_counterexample :
    (fetchCoalesced
        (settleFlight (initState 10000 60000) "k"
          (UpstreamOutcome.success 200 (some "b")) 0).1
        "k" 1).2 =
      CallOutcome.returned
        { status := 200, headers := upstreamHeaders 10000 60000, body := some "b" } ∧
    lookupA (upstreamHeaders 10000 60000) "CF-Cache-Status" = some "MISS" := by
  decide

/-- Claim C7 (amended): the engine itself adds or overwrites no cache-status
header on a fresh hit - a memory-tier or persistent-tier fresh hit returns
the stored headers of the entry unchanged (so an entry cached from upstream
replays the `CF-Cache-Status: MISS` stored with it); headers built for a
response fetched from upstream during this call carry `MISS`; a stale serve
overwrites the indicator with `STALE`; an LKG fallback overwrites it with
`LKG`. -/
theorem C7_cache_status_headers (s : CoalescerState) (k : CoalescedKey)
    (t : Int) (c p : CacheEntry) (F S : Int) :
    (lookupA s.memoryCache k = some c → t < c.expiresAt →
      checkMemoryCache s k t =
        some { status := c.status, headers := c.headers, body := c.body }) ∧
    (lookupA s.storage k = some p → t < p.persistedAt + s.FRESH_TTL_MS →
      (checkStorageCache s k t).2 =
        some { status := p.status, headers := p.headers, body := p.body }) ∧
    lookupA (upstreamHeaders F S) "CF-Cache-Status" = some "MISS" ∧
    (lookupA s.storage k = some p → t < p.persistedAt + s.STALE_TTL_MS →
      (tryServeStale s k t).2 =
        some { status := p.status
               headers := setA p.headers "CF-Cache-Status" "STALE"
               body := p.body } ∧
      lookupA (setA p.headers "CF-Cache-Status" "STALE") "CF-Cache-Status" =
        some "STALE") ∧
    (lookupA s.storage k = some p →
      getLastKnownGood s k t =
        some { status := p.status
               headers :=
                 setA (setA p.headers "CF-Cache-Status" "LKG") "X-LKG-Age"
                   (toString (t - p.persistedAt))
               body := p.body } ∧
      lookupA
          (setA (setA p.headers "CF-Cache-Status" "LKG") "X-LKG-Age"
            (toString (t - p.persistedAt))) "CF-Cache-Status" = some "LKG") := by
  refine ⟨?_, ?_, ?_, ?_, ?_⟩
  · intro hc hexp
    exact checkMemoryCache_hit hc hexp
  · intro hp hf
    rw [checkStorageCache_fresh hp hf]
  · simp [upstreamHeaders, lookupA]
  · intro hp hst
    refine ⟨by rw [tryServeStale_hit hp hst], lookupA_setA_self _ _ _⟩
  · intro hp
    refine ⟨getLastKnownGood_some hp, ?_⟩
    simp [lookupA_setA]

/-- Witness for C7 (amended): a fresh memory hit over an upstream-cached
entry returns the stored headers (which contain the MISS indicator). -/
theorem C7_cache_status_headers_witness :
    checkMemoryCache
        (settleFlight (initState 10000 60000) "k"
          (UpstreamOutcome.success 200 (some "b")) 0).1
        "k" 1 =
      some { status := 200, headers := upstreamHeaders 10000 60000, body := some "b" } ∧
    lookupA (upstreamHeaders 10000 60000) "CF-Cache-Status" = some "MISS" :=
  ⟨(C7_cache_status_headers
      (settleFlight (initState 10000 60000) "k"
        (UpstreamOutcome.success 200 (some "b")) 0).1
      "k" 1
      { expiresAt := 10000, body := some "b"
        headers := upstreamHeaders 10000 60000
        status := 200, persistedAt := 0 }
      { expiresAt := 10000, body := some "b"
        headers := upstreamHeaders 10000 60000
        status := 200, persistedAt := 0 }
      10000 60000).1 (by decide) (by decide),
   (C7_cache_status_headers
      (settleFlight (initState 10000 60000) "k"
        (UpstreamOutcome.success 200 (some "b")) 0).1
      "k" 1
      { expiresAt := 10000, body := some "b"
        headers := upstreamHeaders 10000 60000
        status := 200, persistedAt := 0 }
      { expiresAt := 10000, body := some "b"
        headers := upstreamHeaders 10000 60000
        status := 200, persistedAt := 0 }
      10000 60000).2.2.1⟩

/-! ### Reachable-state invariants: claims C8 and C9 -/

theorem settleFlight_fst (s : CoalescerState) (k : CoalescedKey)
    (out : UpstreamOutcome) (t : Int) :
    (settleFlight s k out t).1 =
      { (fetchUpstreamAndCache s k out t).1 with
          inflightRequests :=
            removeA (fetchUpstreamAndCache s k out t).1.inflightRequests k } := rfl

theorem fetchUpstreamAndCache_state_cases (s : CoalescerState) (k : CoalescedKey)
    (out : UpstreamOutcome) (now : Int) :
    (fetchUpstreamAndCache s k out now).1 = s ∨
    ∃ e : CacheEntry, e.expiresAt = now + s.FRESH_TTL_MS ∧ e.persistedAt = now ∧
      (fetchUpstreamAndCache s k out now).1 =
        { s with
            memoryCache := setA s.memoryCache k e
            storage := setA s.storage k e } := by
  cases out with
  | failure =>
      left
      unfold fetchUpstreamAndCache
      cases hg : getLastKnownGood s k now <;> simp [hg]
  | success st b =>
      unfold fetchUpstreamAndCache
      cases hg : (if 500 ≤ st then getLastKnownGood s k now else none) with
      | some lkg => left; simp [hg]
      | none =>
          by_cases h4 : st < 400
          · right
            refine ⟨{ expiresAt := now + s.FRESH_TTL_MS, body := b
                      headers := upstreamHeaders s.FRESH_TTL_MS s.STALE_TTL_MS
                      status := st, persistedAt := now }, rfl, rfl, ?_⟩
            simp [hg, h4]
          · left; simp [hg, h4]

theorem fetchUpstreamAndCache_inflight (s : CoalescerState) (k : CoalescedKey)
    (out : UpstreamOutcome) (now : Int) :
    (fetchUpstreamAndCache s k out now).1.inflightRequests = s.inflightRequests := by
  rcases fetchUpstreamAndCache_state_cases s k out now with heq | ⟨e, -, -, heq⟩ <;>
    rw [heq]

theorem fetchCoalesced_state_cases (s : CoalescerState) (k : CoalescedKey) (t : Int) :
    (fetchCoalesced s k t).1 = s ∨
    (∃ p, lookupA s.storage k = some p ∧ t < p.persistedAt + s.FRESH_TTL_MS ∧
      (fetchCoalesced s k t).1 =
        { s with
            memoryCache :=
              setA s.memoryCache k { p with expiresAt := t + s.FRESH_TTL_MS } }) ∨
    (fetchCoalesced s k t).1 =
      { s with
          inflightRequests := setA s.inflightRequests k s.nextFid
          nextFid := s.nextFid + 1
          flights := s.flights ++ [(s.nextFid, k)] } := by
  cases hm : checkMemoryCache s k t with
  | some r => left; rw [fetchCoalesced_memory_hit hm]
  | none =>
      cases hl : lookupA s.storage k with
      | none =>
          cases hin : lookupA s.inflightRequests k with
          | some fid =>
              left
              rw [fetchCoalesced_join hm (checkStorageCache_miss hl) hin]
          | none =>
              right; right
              rw [fetchCoalesced_cold hm (checkStorageCache_miss hl) hin
                (tryServeStale_miss hl)]
              rfl
      | some p =>
          by_cases hf : t < p.persistedAt + s.FRESH_TTL_MS
          · right; left
            exact ⟨p, rfl, hf, by rw [fetchCoalesced_storage_fresh hm hl hf]⟩
          · cases hin : lookupA s.inflightRequests k with
            | some fid =>
                left
                rw [fetchCoalesced_join hm (checkStorageCache_notFresh hl hf) hin]
            | none =>
                by_cases hst : t < p.persistedAt + s.STALE_TTL_MS
                · right; right
                  rw [fetchCoalesced_stale hm (checkStorageCache_notFresh hl hf) hin
                    hl hst]
                  unfold backgroundRefresh
                  rw [hin]
                  rfl
                · right; right
                  rw [fetchCoalesced_cold hm (checkStorageCache_notFresh hl hf) hin
                    (tryServeStale_old hl hst)]
                  rfl

theorem reachable_invariant (F S : Int) (s : CoalescerState)
    (h : Reachable F S s) :
    s.FRESH_TTL_MS = F ∧ s.STALE_TTL_MS = S ∧
    (s.inflightRequests.map Prod.fst).Nodup ∧
    (0 ≤ F → ∀ k e, lookupA s.memoryCache k = some e →
      e.expiresAt ≤ e.persistedAt + 2 * F) := by
  induction h with
  | init =>
      refine ⟨rfl, rfl, by simp [initState], ?_⟩
      intro _ k e he
      simp [initState, lookupA] at he
  | arrive k t h ih =>
      obtain ⟨ihF, ihS, ihN, ihM⟩ := ih
      rcases fetchCoalesced_state_cases _ k t with heq | ⟨p, hp, hfr, heq⟩ | heq
      · rw [heq]; exact ⟨ihF, ihS, ihN, ihM⟩
      · rw [heq]
        refine ⟨ihF, ihS, ihN, ?_⟩
        intro hF k' e' he'
        simp only [lookupA_setA] at he'
        by_cases hk : k = k'
        · rw [if_pos hk] at he'
          cases he'
          show t + _ ≤ p.persistedAt + 2 * F
          rw [ihF] at hfr ⊢
          omega
        · rw [if_neg hk] at he'
          exact ihM hF k' e' he'
      · rw [heq]
        exact ⟨ihF, ihS, nodup_keys_setA _ _ _ ihN, ihM⟩
  | settle k out t h ih =>
      obtain ⟨ihF, ihS, ihN, ihM⟩ := ih
      rw [settleFlight_fst]
      rcases fetchUpstreamAndCache_state_cases _ k out t with heq | ⟨e, hex, hpe, heq⟩
      · rw [heq]
        exact ⟨ihF, ihS, nodup_keys_removeA _ _ ihN, ihM⟩
      · rw [heq]
        refine ⟨ihF, ihS, nodup_keys_removeA _ _ ihN, ?_⟩
        intro hF k' e' he'
        simp only [lookupA_setA] at he'
        by_cases hk : k = k'
        · rw [if_pos hk] at he'
          cases he'
          rw [hex, hpe, ihF]
          omega
        · rw [if_neg hk] at he'
          exact ihM hF k' e' he'
  | hibernation h ih =>
      obtain ⟨ihF, ihS, ihN, ihM⟩ := ih
      refine ⟨ihF, ihS, by simp [hibernate], ?_⟩
      intro hF k e he
      simp [hibernate, lookupA] at he

/-- Claim C8: in every reachable state the in-flight registry holds at most
one entry per key (no duplicate keys); settling a flight for a key
unconditionally removes its registration (success and failure alike, via the
`.finally` handler), so a new flight for the key can only be registered
afterwards; and while a flight for the key is registered, a further
`fetchCoalesced` call starts no new flight, and a racing `backgroundRefresh`
trigger observes the existing registration and declines to start a
duplicate. -/
theorem C8_single_flight_registry (F S : Int) (s : CoalescerState)
    (k : CoalescedKey) (fid : Nat) (out : UpstreamOutcome) (t tSettle : Int)
    (h : Reachable F S s) :
    (s.inflightRequests.map Prod.fst).Nodup ∧
    lookupA (settleFlight s k out tSettle).1.inflightRequests k = none ∧
    (lookupA s.inflightRequests k = some fid →
      backgroundRefresh s k = s ∧
      (fetchCoalesced s k t).1.flights = s.flights) := by
  refine ⟨(reachable_invariant F S s h).2.2.1, ?_, ?_⟩
  · rw [settleFlight_fst]
    show lookupA (removeA (fetchUpstreamAndCache s k out tSettle).1.inflightRequests k) k = none
    rw [fetchUpstreamAndCache_inflight]
    exact lookupA_removeA_self _ _
  · intro hin
    constructor
    · unfold backgroundRefresh
      rw [hin]
      rfl
    · cases hm : checkMemoryCache s k t with
      | some r => rw [fetchCoalesced_memory_hit hm]
      | none =>
          cases hl : lookupA s.storage k with
          | none => rw [fetchCoalesced_join hm (checkStorageCache_miss hl) hin]
          | some p =>
              by_cases hf : t < p.persistedAt + s.FRESH_TTL_MS
              · rw [fetchCoalesced_storage_fresh hm hl hf]
              · rw [fetchCoalesced_join hm (checkStorageCache_notFresh hl hf) hin]

/-- Witness for C8 at a concrete reachable state: after one cold call on a
fresh instance, flight 0 is registered for "k"; the registry keys are
duplicate-free, settling removes the registration, a racing refresh trigger
declines, and a second call starts no new flight. -/
theorem C8_single_flight_registry_witness :
    (((fetchCoalesced (initState 10000 60000) "k" 0).1.inflightRequests.map
        Prod.fst).Nodup) ∧
    lookupA
        (settleFlight (fetchCoalesced (initState 10000 60000) "k" 0).1 "k"
          (UpstreamOutcome.success 200 (some "b")) 2).1.inflightRequests "k" = none ∧
    (lookupA (fetchCoalesced (initState 10000 60000) "k" 0).1.inflightRequests "k" =
        some 0 →
      backgroundRefresh (fetchCoalesced (initState 10000 60000) "k" 0).1 "k" =
        (fetchCoalesced (initState 10000 60000) "k" 0).1 ∧
      (fetchCoalesced (fetchCoalesced (initState 10000 60000) "k" 0).1 "k" 1).1.flights =
        (fetchCoalesced (initState 10000 60000) "k" 0).1.flights) :=
  C8_single_flight_registry 10000 60000
    (fetchCoalesced (initState 10000 60000) "k" 0).1 "k" 0
    (UpstreamOutcome.success 200 (some "b")) 1 2
    (Reachable.arrive "k" 0 Reachable.init)

/-- Claim C9: in every reachable state (with a non-negative fresh TTL),
every memory-cache entry satisfies
`expiresAt <= persistedAt + 2 * FRESH_TTL_MS`: an upstream write sets
`expiresAt = persistedAt + FRESH_TTL_MS`, and cache warming on a
persistent-tier fresh hit at `now < persistedAt + FRESH_TTL_MS` sets
`expiresAt = now + FRESH_TTL_MS < persistedAt + 2 * FRESH_TTL_MS`.
Consequently a warmed entry can satisfy the memory-tier freshness check at
times past `persistedAt + FRESH_TTL_MS` (the witness serves one at such a
time, with no STALE annotation and no refresh), but a memory hit can never
occur at or beyond `persistedAt + 2 * FRESH_TTL_MS`. -/
theorem C9_memory_expiry_bound (F S : Int) (s : CoalescerState)
    (k : CoalescedKey) (e : CacheEntry) (t : Int)
    (h : Reachable F S s) (hF : 0 ≤ F) (he : lookupA s.memoryCache k = some e) :
    e.expiresAt ≤ e.persistedAt + 2 * F ∧
    (∀ r, checkMemoryCache s k t = some r → t < e.persistedAt + 2 * F) := by
  have hbound := (reachable_invariant F S s h).2.2.2 hF k e he
  refine ⟨hbound, ?_⟩
  intro r hr
  obtain ⟨c, hc, hcx, -⟩ := checkMemoryCache_some_inv hr
  rw [he] at hc
  cases hc
  exact lt_of_lt_of_le hcx hbound

/-- Witness for C9: settle an entry at time 0, hibernate, and request at
time 9999 - the storage fresh hit warms the memory tier with
`expiresAt = 19999`.  The warmed entry satisfies the bound
`19999 <= 0 + 2 * 10000`, is served as a fresh memory hit at time 15000
(past `persistedAt + FRESH_TTL_MS = 10000`, with the stored headers - no
STALE annotation), and no memory hit can happen at or past time 20000. -/
theorem C9_memory_expiry_bound_witness :
    checkMemoryCache
        (fetchCoalesced
          (hibernate
            (settleFlight (initState 10000 60000) "k"
              (UpstreamOutcome.success 200 (some "b")) 0).1)
          "k" 9999).1
        "k" 15000 =
      some { status := 200, headers := upstreamHeaders 10000 60000, body := some "b" } ∧
    ((19999 : Int) ≤ 0 + 2 * 10000 ∧
      ∀ r,
        checkMemoryCache
            (fetchCoalesced
              (hibernate
                (settleFlight (initState 10000 60000) "k"
                  (UpstreamOutcome.success 200 (some "b")) 0).1)
              "k" 9999).1
            "k" 20000 = some r →
          (20000 : Int) < 0 + 2 * 10000) :=
  ⟨by decide,
   C9_memory_expiry_bound 10000 60000
     (fetchCoalesced
       (hibernate
         (settleFlight (initState 10000 60000) "k"
           (UpstreamOutcome.success 200 (some "b")) 0).1)
       "k" 9999).1
     "k"
     { expiresAt := 19999, body := some "b"
       headers := upstreamHeaders 10000 60000
       status := 200, persistedAt := 0 }
     20000
     (Reachable.arrive "k" 9999
       (Reachable.hibernation
         (Reachable.settle "k" (UpstreamOutcome.success 200 (some "b")) 0
           Reachable.init)))
     (by decide) (by decide)⟩

/-! ### Claim C10: cache-key normalization -/

theorem setDedup_go_mem (xs : List String) (acc : List String) (a : String) :
    (a ∈ xs.foldl (fun acc x => if x ∈ acc then acc else acc ++ [x]) acc) ↔
      a ∈ acc ∨ a ∈ xs := by
  induction xs generalizing acc with
  | nil => simp
  | cons x rest ih =>
      simp only [List.foldl_cons]
      by_cases hx : x ∈ acc
      · rw [if_pos hx, ih]
        constructor
        · rintro (h | h)
          · exact Or.inl h
          · exact Or.inr (List.mem_cons_of_mem x h)
        · rintro (h | h)
          · exact Or.inl h
          · rcases List.mem_cons.mp h with h | h
            · exact Or.inl (h ▸ hx)
            · exact Or.inr h
      · rw [if_neg hx, ih]
        simp only [List.mem_append, List.mem_singleton, List.mem_cons]
        tauto

theorem setDedup_mem (xs : List String) (a : String) :
    a ∈ ProductCoalescer.setDedup xs ↔ a ∈ xs := by
  unfold ProductCoalescer.setDedup
  rw [setDedup_go_mem]
  simp

theorem setDedup_go_nodup (xs : List String) (acc : List String) (h : acc.Nodup) :
    (xs.foldl (fun acc x => if x ∈ acc then acc else acc ++ [x]) acc).Nodup := by
  induction xs generalizing acc with
  | nil => exact h
  | cons x rest ih =>
      simp only [List.foldl_cons]
      by_cases hx : x ∈ acc
      · rw [if_pos hx]; exact ih _ h
      · rw [if_neg hx]
        refine ih _ ?_
        rw [List.nodup_append]
        refine ⟨h, List.nodup_singleton x, ?_⟩
        intro b hb hbx
        exact hx (List.mem_singleton.mp hbx ▸ hb)

theorem setDedup_nodup (xs : List String) : (ProductCoalescer.setDedup xs).Nodup :=
  setDedup_go_nodup xs [] List.nodup_nil

/-- Claim C10: for every product id and any two field lists that are equal as
sets after trimming whitespace and dropping empty strings,
`ProductCoalescer.makeCacheKey` returns the same key; in particular the key
is invariant under permutation, duplication, and surrounding whitespace of
the field names. -/
theorem C10_cache_key_set_invariance (productId : String) (l1 l2 : List String)
    (h : ((l1.map ProductCoalescer.jsTrim).filter (fun f => f ≠ "")).toFinset =
      ((l2.map ProductCoalescer.jsTrim).filter (fun f => f ≠ "")).toFinset) :
    ProductCoalescer.makeCacheKey productId l1 =
      ProductCoalescer.makeCacheKey productId l2 := by
  have hmem : ∀ a,
      a ∈ ProductCoalescer.setDedup
            ((l1.map ProductCoalescer.jsTrim).filter (fun f => f ≠ "")) ↔
      a ∈ ProductCoalescer.setDedup
            ((l2.map ProductCoalescer.jsTrim).filter (fun f => f ≠ "")) := by
    intro a
    rw [setDedup_mem, setDedup_mem, ← List.mem_toFinset, h, List.mem_toFinset]
  have hperm :
      List.Perm
        (List.insertionSort (fun a b : String => a ≤ b)
          (ProductCoalescer.setDedup
            ((l1.map ProductCoalescer.jsTrim).filter (fun f => f ≠ ""))))
        (List.insertionSort (fun a b : String => a ≤ b)
          (ProductCoalescer.setDedup
            ((l2.map ProductCoalescer.jsTrim).filter (fun f => f ≠ "")))) :=
    (List.perm_insertionSort _ _).trans
      (((List.perm_ext_iff_of_nodup (setDedup_nodup _) (setDedup_nodup _)).mpr
          hmem).trans
        (List.perm_insertionSort _ _).symm)
  have heq :=
    List.eq_of_perm_of_sorted hperm (List.sorted_insertionSort _ _)
      (List.sorted_insertionSort _ _)
  unfold ProductCoalescer.makeCacheKey
  rw [heq]

/-- Witness for C10: permutation, duplication, an empty string and
surrounding whitespace in the field list do not change the key. -/
theorem C10_cache_key_set_invariance_witness :
    ((["price", " name"].map ProductCoalescer.jsTrim).filter
        (fun f => f ≠ "")).toFinset =
      ((["name", "price", "", "price "].map ProductCoalescer.jsTrim).filter
        (fun f => f ≠ "")).toFinset ∧
    ProductCoalescer.makeCacheKey "SKU123" ["price", " name"] =
      ProductCoalescer.makeCacheKey "SKU123" ["name", "price", "", "price "] :=
  ⟨by decide, C10_cache_key_set_invariance "SKU123" _ _ (by decide)⟩
